import Mathlib

/-!
A shallow embedding of the core of the MarketSimulator repository
(`src/core/order_book.cpp`, `src/core/latency_model.cpp`,
`src/core/dispatcher.cpp`, `include/market_replay/utils/blocking_queue.hpp`,
`include/market_replay/common.hpp`, `include/market_replay/event.hpp`),
together with proofs and refutations of the frozen specification claims.

Modelling conventions:
* `Timestamp` (C++ `time_point<system_clock, nanoseconds>`) is `ℤ`, counting
  nanoseconds; `Timestamp::min()` is `-(2^63)`.
* `Duration` (C++ `std::chrono::nanoseconds`) is `ℤ`.
* `Price` (C++ `double`) is `Option ℚ`, where `none` models NaN
  (`INVALID_PRICE = quiet_NaN()`); every ordered comparison involving NaN is
  false in IEEE arithmetic and hence in the model.  The book's stored
  `std::optional<Price>` fields are modelled as `Option ℚ` (`none` = nullopt);
  a stored NaN cannot arise because `update_quote` stores a price only after
  the comparison `price > 0` succeeded, which NaN fails.
* `Quantity` (C++ `uint64_t`) is `ℕ`; the only subtraction performed by the
  code subtracts `min(quantity, size) ≤ size` from `size`, so no wrap-around
  can occur and `ℕ` subtraction is exact.
* The potential undefined behaviour in `SimpleOrderBook::match_limit_order`
  (dereferencing the size optional guarded only by price presence) is made
  explicit: the function returns `none` exactly on the C++ executions that
  would dereference a disengaged `std::optional`.
-/

namespace MarketReplay

/-- C++ `Timestamp`: nanoseconds since epoch, as a mathematical integer. -/
abbrev Timestamp := ℤ

/-- C++ `Duration` (`std::chrono::nanoseconds`). -/
abbrev Duration := ℤ

/-- `Timestamp::min()` for `time_point<system_clock, nanoseconds>`:
`int64_t` minimum, i.e. `-(2^63)` nanoseconds. -/
def timestampMin : Timestamp := -(2 ^ 63)

/-- C++ `Price` = `double`; `none` models NaN. -/
abbrev Price := Option ℚ

/-- `INVALID_PRICE = std::numeric_limits<double>::quiet_NaN()`. -/
def INVALID_PRICE : Price := none

/-- `PRICE_EPSILON = 1e-9` (common.hpp). -/
def PRICE_EPSILON : ℚ := 1 / 1000000000

/-- IEEE `a > 0` on a possibly-NaN double: false when NaN. -/
def priceGtZero : Price → Bool
  | some v => decide (0 < v)
  | none => false

/-- IEEE `a >= b` where `a` is possibly NaN and `b` is a real bound:
false when `a` is NaN. -/
def priceGeQ (a : Price) (b : ℚ) : Bool :=
  match a with
  | some v => decide (b ≤ v)
  | none => false

/-- IEEE `a <= b` where `a` is possibly NaN and `b` is a real bound:
false when `a` is NaN. -/
def priceLeQ (a : Price) (b : ℚ) : Bool :=
  match a with
  | some v => decide (v ≤ b)
  | none => false

/-- `std::isnan` on the model of `double`. -/
def isnan (a : Price) : Bool := a.isNone

/-- `enum class OrderSide` (common.hpp). -/
inductive OrderSide where
  | BUY
  | SELL
deriving DecidableEq, Repr

/-- `enum class OrderType` (common.hpp). -/
inductive OrderType where
  | MARKET
  | LIMIT
deriving DecidableEq, Repr

/-- `enum class OrderStatus` (common.hpp). -/
inductive OrderStatus where
  | PENDING_NEW
  | NEW
  | ACKNOWLEDGED
  | PARTIALLY_FILLED
  | FILLED
  | CANCELLED
  | REJECTED
  | EXPIRED
deriving DecidableEq, Repr

/-- `struct QuoteEvent` (event.hpp), the fields consumed by
`SimpleOrderBook::update_quote`. -/
structure QuoteEvent where
  symbol : String
  bid_price : Price
  bid_size : ℕ
  ask_price : Price
  ask_size : ℕ
deriving DecidableEq, Repr

/-- The state of `class SimpleOrderBook` (order_book.hpp): symbol plus
top-of-book optionals.  The `last_trade_price_` fields are never read or
written by any included source file and are omitted. -/
structure SimpleOrderBook where
  symbol_ : String
  best_bid_price_ : Option ℚ
  best_bid_size_ : Option ℕ
  best_ask_price_ : Option ℚ
  best_ask_size_ : Option ℕ
deriving DecidableEq, Repr

/-- `SimpleOrderBook(symbol)` constructor: all four optionals disengaged. -/
def SimpleOrderBook.mkEmpty (symbol : String) : SimpleOrderBook :=
  ⟨symbol, none, none, none, none⟩

/-- `SimpleOrderBook::update_quote` (order_book.cpp lines 7-28): ignore quotes
for other symbols; each side is overwritten with `(px, sz)` when
`px > 0 && sz > 0`, else cleared. -/
def SimpleOrderBook.update_quote (b : SimpleOrderBook) (quote : QuoteEvent) :
    SimpleOrderBook :=
  if quote.symbol ≠ b.symbol_ then b
  else
    { b with
      best_bid_price_ :=
        if priceGtZero quote.bid_price && decide (0 < quote.bid_size) then
          quote.bid_price
        else none
      best_bid_size_ :=
        if priceGtZero quote.bid_price && decide (0 < quote.bid_size) then
          some quote.bid_size
        else none
      best_ask_price_ :=
        if priceGtZero quote.ask_price && decide (0 < quote.ask_size) then
          quote.ask_price
        else none
      best_ask_size_ :=
        if priceGtZero quote.ask_price && decide (0 < quote.ask_size) then
          some quote.ask_size
        else none }

/-- `SimpleOrderBook::match_market_order` (order_book.cpp lines 30-65).
Returns the `{fill_price, filled_quantity}` pair and the updated book. -/
def SimpleOrderBook.match_market_order (b : SimpleOrderBook) (side : OrderSide)
    (quantity : ℕ) : (Price × ℕ) × SimpleOrderBook :=
  if quantity = 0 then ((INVALID_PRICE, 0), b)
  else
    match side with
    | .BUY =>
      match b.best_ask_price_, b.best_ask_size_ with
      | some ap, some asz =>
        if 0 < asz then
          let filled := min quantity asz
          let newSz := asz - filled
          ((some ap, filled),
           { b with
             best_ask_size_ := some newSz
             best_ask_price_ := if newSz = 0 then none else some ap })
        else ((INVALID_PRICE, 0), b)
      | _, _ => ((INVALID_PRICE, 0), b)
    | .SELL =>
      match b.best_bid_price_, b.best_bid_size_ with
      | some bp, some bsz =>
        if 0 < bsz then
          let filled := min quantity bsz
          let newSz := bsz - filled
          ((some bp, filled),
           { b with
             best_bid_size_ := some newSz
             best_bid_price_ := if newSz = 0 then none else some bp })
        else ((INVALID_PRICE, 0), b)
      | _, _ => ((INVALID_PRICE, 0), b)

/-- `SimpleOrderBook::match_limit_order` (order_book.cpp lines 68-107).
The result is `none` exactly when the C++ code dereferences a disengaged
size optional (undefined behaviour): on the BUY path the aggressiveness
guard checks only `best_ask_price_` before reading `*best_ask_size_`, and on
the SELL path `*best_bid_size_` is read inside the guard after checking only
`best_bid_price_`. -/
def SimpleOrderBook.match_limit_order (b : SimpleOrderBook) (side : OrderSide)
    (limit_price : Price) (quantity : ℕ) :
    Option ((Price × ℕ) × SimpleOrderBook) :=
  if quantity = 0 || isnan limit_price then some ((INVALID_PRICE, 0), b)
  else
    match side with
    | .BUY =>
      match b.best_ask_price_ with
      | some ap =>
        if 0 < ap ∧ priceGeQ limit_price (ap - PRICE_EPSILON) then
          match b.best_ask_size_ with
          | some asz =>
            let filled := min quantity asz
            let newSz := asz - filled
            some ((some ap, filled),
              { b with
                best_ask_size_ := some newSz
                best_ask_price_ := if newSz = 0 then none else some ap })
          | none => none   -- UB: `*best_ask_size_` with disengaged optional
        else some ((INVALID_PRICE, 0), b)
      | none => some ((INVALID_PRICE, 0), b)
    | .SELL =>
      match b.best_bid_price_ with
      | some bp =>
        match b.best_bid_size_ with
        | some bsz =>
          if 0 < bsz ∧ priceLeQ limit_price (bp + PRICE_EPSILON) then
            let filled := min quantity bsz
            let newSz := bsz - filled
            some ((some bp, filled),
              { b with
                best_bid_size_ := some newSz
                best_bid_price_ := if newSz = 0 then none else some bp })
          else some ((INVALID_PRICE, 0), b)
        | none => none   -- UB: `*best_bid_size_` with disengaged optional
      | none => some ((INVALID_PRICE, 0), b)

/-! ### Blocking queue (utils/blocking_queue.hpp)

The queue interior is `queue_` (front at the head of the list) plus the
`shutdown_requested_` flag and the bound `max_size_` (0 = unbounded).  The
sequential model makes each call's synchronised critical section one atomic
function; a call that would wait on a condition variable forever is reported
as `blocks`. -/

/-- Outcome of `BlockingQueue::wait_and_pop`: `got` = returned `true` with an
item, `closed` = returned `false`, `blocks` = the condition-variable wait
never completes (queue open and empty, nobody pushes). -/
inductive WaitPopResult (T : Type) where
  | got (item : T)
  | closed
  | blocks
deriving DecidableEq, Repr

/-- Outcome of `BlockingQueue::push`. -/
inductive PushResult where
  | pushed
  | dropped
  | blocks
deriving DecidableEq, Repr

/-- State of `utils::BlockingQueue<T>`. -/
structure BlockingQueue (T : Type) where
  queue_ : List T
  shutdown_requested_ : Bool
  max_size_ : ℕ
deriving DecidableEq, Repr

namespace BlockingQueue

/-- `BlockingQueue::push` (blocking_queue.hpp lines 24-35): a bounded, full,
open queue makes the producer wait; once past the wait, a shut-down queue
drops the item, otherwise it is appended at the back. -/
def push (q : BlockingQueue T) (item : T) : PushResult × BlockingQueue T :=
  if 0 < q.max_size_ ∧ q.max_size_ ≤ q.queue_.length ∧ ¬q.shutdown_requested_ then
    (.blocks, q)
  else if q.shutdown_requested_ then (.dropped, q)
  else (.pushed, { q with queue_ := q.queue_ ++ [item] })

/-- `BlockingQueue::wait_and_pop` (blocking_queue.hpp lines 37-51): wait until
non-empty or shut down; report `closed` only when shut down *and* empty,
otherwise pop the front item. -/
def wait_and_pop (q : BlockingQueue T) : WaitPopResult T × BlockingQueue T :=
  if q.queue_.isEmpty ∧ ¬q.shutdown_requested_ then (.blocks, q)
  else if q.shutdown_requested_ ∧ q.queue_.isEmpty then (.closed, q)
  else
    match q.queue_ with
    | item :: rest => (.got item, { q with queue_ := rest })
    | [] => (.closed, q)

/-- `BlockingQueue::try_pop` (blocking_queue.hpp lines 53-62): returns
`nullopt` when the queue is empty *or shut down* — the shutdown check comes
before any attempt to read the front item. -/
def try_pop (q : BlockingQueue T) : Option T × BlockingQueue T :=
  if q.queue_.isEmpty ∨ q.shutdown_requested_ then (none, q)
  else
    match q.queue_ with
    | item :: rest => (some item, { q with queue_ := rest })
    | [] => (none, q)

/-- `BlockingQueue::shutdown` (blocking_queue.hpp lines 93-100). -/
def shutdown (q : BlockingQueue T) : BlockingQueue T :=
  { q with shutdown_requested_ := true }

/-- Repeated `wait_and_pop`, collecting the items obtained before the first
non-`got` outcome (at most `fuel + 1` calls). -/
def popAll (fuel : ℕ) (q : BlockingQueue T) : List T × WaitPopResult T :=
  match fuel with
  | 0 => ([], (wait_and_pop q).1)
  | n + 1 =>
    match wait_and_pop q with
    | (.got item, q1) =>
      let p := popAll n q1
      (item :: p.1, p.2)
    | (r, _) => ([], r)

end BlockingQueue

/-! ### Latency model (latency_model.cpp) -/

/-- `LatencyModel::Config` (latency_model.hpp lines 13-20), defaults in ns. -/
structure LatencyConfig where
  market_data_feed_latency : Duration := 50000
  strategy_processing_latency : Duration := 5000
  order_network_latency_strat_to_exch : Duration := 20000
  exchange_order_processing_latency : Duration := 10000
  exchange_fill_processing_latency : Duration := 15000
  ack_network_latency_exch_to_strat : Duration := 20000
deriving DecidableEq, Repr

/-- `LatencyModel::get_market_data_latency` (latency_model.cpp lines 14-17):
event-independent. -/
def get_market_data_latency (cfg : LatencyConfig) : Duration :=
  cfg.market_data_feed_latency

/-- `LatencyModel::get_strategy_processing_latency` (lines 19-21). -/
def get_strategy_processing_latency (cfg : LatencyConfig) : Duration :=
  cfg.strategy_processing_latency

/-- `LatencyModel::get_order_arrival_at_exchange_ts` (lines 23-27): adds only
the network leg; the dispatcher adds the strategy-processing leg itself. -/
def get_order_arrival_at_exchange_ts (cfg : LatencyConfig)
    (strategy_decision_ts : Timestamp) : Timestamp :=
  strategy_decision_ts + cfg.order_network_latency_strat_to_exch

/-- `LatencyModel::get_ack_arrival_at_strategy_ts` (lines 29-32). -/
def get_ack_arrival_at_strategy_ts (cfg : LatencyConfig)
    (order_arrival_at_exchange_ts : Timestamp) : Timestamp :=
  order_arrival_at_exchange_ts + cfg.exchange_order_processing_latency
    + cfg.ack_network_latency_exch_to_strat

/-- `LatencyModel::get_fill_arrival_at_strategy_ts` (lines 34-42). -/
def get_fill_arrival_at_strategy_ts (cfg : LatencyConfig)
    (order_arrival_at_exchange_ts : Timestamp) : Timestamp :=
  order_arrival_at_exchange_ts + cfg.exchange_fill_processing_latency
    + cfg.ack_network_latency_exch_to_strat

/-! ### Events and order requests (event.hpp) -/

/-- `enum class EventType` (event.hpp). -/
inductive EventType where
  | UNKNOWN
  | QUOTE
  | TRADE
  | ORDER_ACK
  | SIM_CONTROL_DISPATCHER
  | SIM_CONTROL_STRATEGY
deriving DecidableEq, Repr

/-- `SimControlEvent::ControlType` (event.hpp). -/
inductive CtrlType where
  | END_OF_DATA_FEED
  | PROCESS_ORDER_REQUESTS
  | STRATEGY_SHUTDOWN
deriving DecidableEq, Repr

/-- The concrete event classes that flow through the MEPQ and the strategy
mailboxes (event.hpp): `QuoteEvent`, `TradeEvent`, `OrderAckEvent`,
`SimControlEvent`.  Each constructor carries the fields of the C++ class;
`arrival_timestamp` is the effective timestamp used for MEPQ ordering. -/
inductive MEvent where
  | quote (exchange_timestamp arrival_timestamp : Timestamp) (data : QuoteEvent)
  | trade (exchange_timestamp arrival_timestamp : Timestamp) (symbol : String)
      (price : Price) (size : ℕ)
  | orderAck (arrival_timestamp : Timestamp) (strategy_id : String)
      (client_order_id exchange_order_id : ℕ) (symbol : String)
      (status : OrderStatus) (last_filled_price : Price)
      (last_filled_quantity cumulative_filled_quantity leaves_quantity : ℕ)
  | simControl (arrival_timestamp : Timestamp) (control_type : CtrlType)
      (etype : EventType)
deriving DecidableEq, Repr

/-- `BaseEvent::get_effective_timestamp`: the arrival timestamp. -/
def MEvent.get_effective_timestamp : MEvent → Timestamp
  | .quote _ ts _ => ts
  | .trade _ ts _ _ _ => ts
  | .orderAck ts _ _ _ _ _ _ _ _ _ => ts
  | .simControl ts _ _ => ts

/-- Is this event a `QuoteEvent` or `TradeEvent` (market data)? -/
def MEvent.isMarketData : MEvent → Bool
  | .quote _ _ _ => true
  | .trade _ _ _ _ _ => true
  | _ => false

/-- Is this event a `SimControlEvent` with `control_type == END_OF_DATA_FEED`? -/
def MEvent.isEndOfDataFeed : MEvent → Bool
  | .simControl _ .END_OF_DATA_FEED _ => true
  | _ => false

/-- Is this event a `SimControlEvent` with `control_type == STRATEGY_SHUTDOWN`? -/
def MEvent.isStrategyShutdown : MEvent → Bool
  | .simControl _ .STRATEGY_SHUTDOWN _ => true
  | _ => false

/-- `struct OrderRequest` (event.hpp lines 66-76). -/
structure OrderRequest where
  strategy_id : String
  client_order_id : ℕ
  symbol : String
  side : OrderSide
  type : OrderType
  price : Price
  quantity : ℕ
  request_timestamp : Timestamp
deriving DecidableEq, Repr

/-! ### Order lifecycle simulator (dispatcher.cpp lines 382-460) -/

/-- `Dispatcher::simulate_order_lifecycle`: given the latency configuration,
the freshly assigned exchange order id and the symbol's book, produce the
updated book and the list of `OrderAckEvent`s pushed into the MEPQ, in push
order (the `ACKNOWLEDGED` ack first, then the optional fill ack).  The result
is `none` iff the embedded `match_limit_order` hits its undefined-behaviour
path. -/
def simulate_order_lifecycle (latency_model_ : LatencyConfig)
    (exchange_order_id : ℕ) (book : SimpleOrderBook)
    (order_req : OrderRequest) : Option (SimpleOrderBook × List MEvent) :=
  let decision_ts := order_req.request_timestamp
  let order_effectively_sent_ts :=
    decision_ts + get_strategy_processing_latency latency_model_
  let order_arrival_at_exchange_ts :=
    get_order_arrival_at_exchange_ts latency_model_ order_effectively_sent_ts
  let ack_arrival_strat_ts :=
    get_ack_arrival_at_strategy_ts latency_model_ order_arrival_at_exchange_ts
  let new_ack : MEvent := .orderAck ack_arrival_strat_ts order_req.strategy_id
    order_req.client_order_id exchange_order_id order_req.symbol .ACKNOWLEDGED
    (some 0) 0 0 order_req.quantity
  let matchResult : Option ((Price × ℕ) × SimpleOrderBook) :=
    match order_req.type with
    | .MARKET => some (book.match_market_order order_req.side order_req.quantity)
    | .LIMIT => book.match_limit_order order_req.side order_req.price
        order_req.quantity
  match matchResult with
  | none => none
  | some ((fill_price, filled_qty), book1) =>
    if 0 < filled_qty ∧ isnan fill_price = false then
      let fill0 :=
        get_fill_arrival_at_strategy_ts latency_model_ order_arrival_at_exchange_ts
      let fill_arrival_strat_ts :=
        if fill0 < ack_arrival_strat_ts then ack_arrival_strat_ts + 1 else fill0
      let fill_ack : MEvent := .orderAck fill_arrival_strat_ts
        order_req.strategy_id order_req.client_order_id exchange_order_id
        order_req.symbol
        (if filled_qty = order_req.quantity then .FILLED else .PARTIALLY_FILLED)
        fill_price filled_qty filled_qty (order_req.quantity - filled_qty)
      some (book1, [new_ack, fill_ack])
    else some (book1, [new_ack])

/-- The `EventType` tag (`BaseEvent::type`) of a modelled event. -/
def MEvent.etype : MEvent → EventType
  | .quote _ _ _ => .QUOTE
  | .trade _ _ _ _ _ => .TRADE
  | .orderAck _ _ _ _ _ _ _ _ _ _ => .ORDER_ACK
  | .simControl _ _ et => et

/-! ### Dispatcher (dispatcher.cpp)

The dispatch thread is modelled as a sequential transition system.  The
strategy worker threads only consume their own mailboxes and produce order
requests; neither affects which events the dispatcher pushes, so the model
keeps each mailbox's full push sequence in `input_queue.queue_` (no pops) and
takes the order requests drained by each `process_incoming_order_requests`
call from an oracle `ℕ → List OrderRequest` indexed by the drain counter.
`std::priority_queue` with `EventComparator` pops a minimal-timestamp event
with unspecified tie order; the model resolves ties to the earliest-pushed
event.  After `load_initial_data` the `CsvParser` is always exhausted (the
loader drains it completely), so the run-loop check
`csv_parser_ && !csv_parser_->has_more_events()` is always true; the model
reflects that.  `std::chrono::system_clock::now()` is the parameter
`wall_now`. -/

/-- A parsed market-data record yielded by the `CsvParser`. -/
inductive FeedEvent where
  | quote (ts_exchange : Timestamp) (data : QuoteEvent)
  | trade (ts_exchange : Timestamp) (symbol : String) (price : Price) (size : ℕ)
deriving DecidableEq, Repr

/-- `Dispatcher::StrategyRunner`: id plus bounded input mailbox. -/
structure StrategyRunner where
  id : String
  input_queue : BlockingQueue MEvent
deriving DecidableEq, Repr

/-- The dispatcher state mutated by the dispatch thread, plus the trace
`mepq_push_trace` of every event ever pushed into the MEPQ (in push order)
and a flag recording whether an undefined-behaviour path of
`match_limit_order` was reached. -/
structure DispatcherState where
  main_event_pq_ : List MEvent
  mepq_push_trace : List MEvent
  strategy_runners_ : List StrategyRunner
  order_books_ : List (String × SimpleOrderBook)
  current_simulation_time_ : Timestamp
  data_feed_ended_signal_pushed : Bool
  next_exchange_order_id_ : ℕ
  drain_count : ℕ
  ub_flag : Bool
deriving DecidableEq, Repr

/-- Pop a minimal-effective-timestamp event from the MEPQ (earliest-pushed
among ties). -/
def mepqPopMin : List MEvent → Option (MEvent × List MEvent)
  | [] => none
  | e :: es =>
    match mepqPopMin es with
    | none => some (e, [])
    | some (m, rest) =>
      if m.get_effective_timestamp < e.get_effective_timestamp then
        some (m, e :: rest)
      else some (e, es)

/-- `Dispatcher::get_or_create_order_book`, read side: the entry for
`symbol`, or a fresh empty book. -/
def getBook (books : List (String × SimpleOrderBook)) (symbol : String) :
    SimpleOrderBook :=
  match books.find? (fun p => p.1 = symbol) with
  | some p => p.2
  | none => SimpleOrderBook.mkEmpty symbol

/-- Store the (possibly fresh) book for `symbol` back into the map. -/
def setBook (books : List (String × SimpleOrderBook)) (symbol : String)
    (b : SimpleOrderBook) : List (String × SimpleOrderBook) :=
  if (books.find? (fun p => p.1 = symbol)).isSome then
    books.map (fun p => if p.1 = symbol then (p.1, b) else p)
  else books ++ [(symbol, b)]

namespace DispatcherState

/-- Push one event into the MEPQ, recording it in the trace. -/
def pushMEPQ (s : DispatcherState) (e : MEvent) : DispatcherState :=
  { s with
    main_event_pq_ := s.main_event_pq_ ++ [e]
    mepq_push_trace := s.mepq_push_trace ++ [e] }

/-- Push a fresh copy of an event into one strategy mailbox
(`runner.input_queue->push(...)`). -/
def pushToRunner (r : StrategyRunner) (e : MEvent) : StrategyRunner :=
  { r with input_queue := (r.input_queue.push e).2 }

/-- Push a fresh copy of an event into every registered strategy's mailbox
(the broadcast loop of `handle_market_data_event` /
the shutdown loop of `handle_sim_control_event`). -/
def broadcast (s : DispatcherState) (e : MEvent) : DispatcherState :=
  { s with strategy_runners_ := s.strategy_runners_.map (pushToRunner · e) }

/-- `Dispatcher::handle_order_ack_event`: route a copy to the strategy named
in the ack; unknown ids are logged and dropped. -/
def routeAck (s : DispatcherState) (strategy_id : String) (e : MEvent) :
    DispatcherState :=
  { s with
    strategy_runners_ := s.strategy_runners_.map
      (fun r => if r.id = strategy_id then pushToRunner r e else r) }

/-- One order request through `Dispatcher::simulate_order_lifecycle`:
assign the next exchange order id, match against the symbol's book, push the
resulting ack (and optional fill) events into the MEPQ. -/
def processOneRequest (cfg : LatencyConfig) (s : DispatcherState)
    (req : OrderRequest) : DispatcherState :=
  let exId := s.next_exchange_order_id_
  let book := getBook s.order_books_ req.symbol
  match simulate_order_lifecycle cfg exId book req with
  | none => { s with next_exchange_order_id_ := exId + 1, ub_flag := true }
  | some (book1, evs) =>
    evs.foldl pushMEPQ
      { s with
        next_exchange_order_id_ := exId + 1
        order_books_ := setBook s.order_books_ req.symbol book1 }

/-- `Dispatcher::process_incoming_order_requests`: drain the order-request
queue (`try_pop` until empty); the drained batch comes from the oracle. -/
def processIncoming (cfg : LatencyConfig) (oracle : ℕ → List OrderRequest)
    (s : DispatcherState) : DispatcherState :=
  (oracle s.drain_count).foldl (processOneRequest cfg)
    { s with drain_count := s.drain_count + 1 }

/-- `Dispatcher::process_event_from_mepq` (dispatcher.cpp lines 257-363):
quotes update the symbol's book, market data is broadcast, acks are routed,
`PROCESS_ORDER_REQUESTS` drains the request queue and reschedules itself at
`current_sim_time + 10 ms` iff the MEPQ is non-empty, and a strategy-typed
`END_OF_DATA_FEED` pushes a `STRATEGY_SHUTDOWN` (at the event's own arrival
timestamp) into every mailbox.  A dispatcher-typed `END_OF_DATA_FEED` matches
no handler branch and is discarded. -/
def process_event_from_mepq (cfg : LatencyConfig)
    (oracle : ℕ → List OrderRequest) (s : DispatcherState) (e : MEvent) :
    DispatcherState :=
  let s :=
    match e with
    | .quote _ _ q =>
      { s with
        order_books_ :=
          setBook s.order_books_ q.symbol
            ((getBook s.order_books_ q.symbol).update_quote q) }
    | _ => s
  match e with
  | .quote _ _ _ => s.broadcast e
  | .trade _ _ _ _ _ => s.broadcast e
  | .orderAck _ strategy_id _ _ _ _ _ _ _ _ => s.routeAck strategy_id e
  | .simControl ts control_type etype =>
    if etype = .SIM_CONTROL_DISPATCHER then
      if control_type = .PROCESS_ORDER_REQUESTS then
        let s := s.processIncoming cfg oracle
        if ¬s.main_event_pq_.isEmpty then
          s.pushMEPQ (.simControl (s.current_simulation_time_ + 10000000)
            .PROCESS_ORDER_REQUESTS .SIM_CONTROL_DISPATCHER)
        else s
      else s
    else
      if control_type = .END_OF_DATA_FEED then
        s.broadcast (.simControl ts .STRATEGY_SHUTDOWN .SIM_CONTROL_STRATEGY)
      else s

end DispatcherState

/-- `Dispatcher::load_initial_data` (dispatcher.cpp lines 121-155): push every
parser event into the MEPQ with `arrival = exchange_ts + market_data_latency`;
if nothing was loaded, push an `END_OF_DATA_FEED` control at the wall clock
`now` with the default (dispatcher) event type. -/
def load_initial_data (cfg : LatencyConfig) (feed : List FeedEvent)
    (wall_now : Timestamp) (s : DispatcherState) : DispatcherState :=
  let s := feed.foldl
    (fun s fe =>
      match fe with
      | .quote ts q =>
        s.pushMEPQ (.quote ts (ts + get_market_data_latency cfg) q)
      | .trade ts sym p sz =>
        s.pushMEPQ (.trade ts (ts + get_market_data_latency cfg) sym p sz)) s
  if s.main_event_pq_.isEmpty then
    s.pushMEPQ (.simControl wall_now .END_OF_DATA_FEED .SIM_CONTROL_DISPATCHER)
  else s

/-- Result of a (fuel-bounded) run: the final state and whether the main
loop exited through its `break` (a completed run). -/
structure RunResult where
  state : DispatcherState
  completed : Bool
deriving DecidableEq, Repr

/-- The main event loop of `Dispatcher::run` (dispatcher.cpp lines 190-249),
one recursive call per `while` iteration.  After `load_initial_data` the
parser-exhausted check reduces to `¬ data_feed_ended_signal_pushed` (see the
section comment). -/
def runLoop (cfg : LatencyConfig) (oracle : ℕ → List OrderRequest) :
    ℕ → DispatcherState → RunResult
  | 0, s => ⟨s, false⟩
  | fuel + 1, s =>
    let s := s.processIncoming cfg oracle
    if s.main_event_pq_.isEmpty then
      -- the model's request queue is fully drained here, so
      -- `incoming_order_requests_.empty()` holds
      if ¬s.data_feed_ended_signal_pushed then
        let s := s.pushMEPQ (.simControl (s.current_simulation_time_ + 1)
          .END_OF_DATA_FEED .SIM_CONTROL_STRATEGY)
        runLoop cfg oracle fuel { s with data_feed_ended_signal_pushed := true }
      else ⟨s, true⟩
    else
      match mepqPopMin s.main_event_pq_ with
      | none => ⟨s, true⟩
      | some (e, rest) =>
        let s := { s with
          main_event_pq_ := rest
          current_simulation_time_ := e.get_effective_timestamp }
        let s := s.process_event_from_mepq cfg oracle e
        let s :=
          if ¬s.data_feed_ended_signal_pushed then
            let s := s.pushMEPQ (.simControl (s.current_simulation_time_ + 1)
              .END_OF_DATA_FEED .SIM_CONTROL_STRATEGY)
            { s with data_feed_ended_signal_pushed := true }
          else s
        runLoop cfg oracle fuel s

/-- `Dispatcher::shutdown_strategies` (dispatcher.cpp lines 474-502): a
fallback `STRATEGY_SHUTDOWN` at `current_sim_time + 1` into every mailbox not
yet shut down, followed by a hard queue shutdown. -/
def shutdown_strategies (s : DispatcherState) : DispatcherState :=
  { s with
    strategy_runners_ := s.strategy_runners_.map
      (fun r =>
        if ¬r.input_queue.shutdown_requested_ then
          { r with
            input_queue :=
              ((r.input_queue.push (.simControl
                (s.current_simulation_time_ + 1) .STRATEGY_SHUTDOWN
                .SIM_CONTROL_STRATEGY)).2).shutdown }
        else r) }

/-- `Dispatcher::run` (dispatcher.cpp lines 157-255): start workers, load the
feed, schedule the initial `PROCESS_ORDER_REQUESTS`, iterate the main loop,
then shut the strategies down.  Mailboxes start empty with capacity 10000
(`add_strategy`), `current_simulation_time_` starts at `Timestamp::min()`,
`next_exchange_order_id_` at 1. -/
def Dispatcher.run (cfg : LatencyConfig) (feed : List FeedEvent)
    (strategy_ids : List String) (oracle : ℕ → List OrderRequest)
    (wall_now : Timestamp) (fuel : ℕ) : RunResult :=
  let s0 : DispatcherState :=
    { main_event_pq_ := []
      mepq_push_trace := []
      strategy_runners_ := strategy_ids.map (fun i => ⟨i, ⟨[], false, 10000⟩⟩)
      order_books_ := []
      current_simulation_time_ := timestampMin
      data_feed_ended_signal_pushed := false
      next_exchange_order_id_ := 1
      drain_count := 0
      ub_flag := false }
  let s1 := load_initial_data cfg feed wall_now s0
  let s2 :=
    if ¬s1.main_event_pq_.isEmpty then
      match mepqPopMin s1.main_event_pq_ with
      | some (top, _) =>
        s1.pushMEPQ (.simControl top.get_effective_timestamp
          .PROCESS_ORDER_REQUESTS .SIM_CONTROL_DISPATCHER)
      | none => s1
    else
      s1.pushMEPQ (.simControl wall_now .PROCESS_ORDER_REQUESTS
        .SIM_CONTROL_DISPATCHER)
  let r := runLoop cfg oracle fuel s2
  if r.completed then ⟨shutdown_strategies r.state, true⟩ else r

/-! ### Concrete runs used to settle the dispatcher claims -/

/-- Latency configuration with zero market-data latency (arrival = exchange
timestamp); the remaining legs keep their defaults. -/
def zeroMdCfg : LatencyConfig := { market_data_feed_latency := 0 }

/-- A two-quote feed for symbol `AAA`, exchange timestamps 100 ns and
200 ns. -/
def twoQuoteFeed : List FeedEvent :=
  [.quote 100 ⟨"AAA", some 10, 100, some 11, 100⟩,
   .quote 200 ⟨"AAA", some 10, 100, some 12, 100⟩]

/-- The run of `Dispatcher::run` on `twoQuoteFeed` with one registered
strategy `"S"` that submits no orders. -/
def twoQuoteRun : RunResult :=
  Dispatcher.run zeroMdCfg twoQuoteFeed ["S"] (fun _ => []) 0 20

/-- The push sequence into strategy `"S"`'s mailbox in `twoQuoteRun`. -/
def twoQuoteMailbox : List MEvent :=
  match twoQuoteRun.state.strategy_runners_ with
  | [r] => r.input_queue.queue_
  | _ => []

/-- The run of `Dispatcher::run` on the empty feed with no strategies and
wall clock `42` ns. -/
def emptyFeedRun : RunResult :=
  Dispatcher.run {} [] [] (fun _ => []) 42 20

/-! ### Book invariants and reachability -/

/-- One side of the book is well formed when a present price implies a
present, strictly positive size and a strictly positive price. -/
def sidePricePos : Option ℚ → Option ℕ → Bool
  | some px, some sz => decide (0 < px) && decide (0 < sz)
  | some _, none => false
  | none, _ => true

/-- The book invariant maintained by the code: on each side, a present price
comes with a strictly positive price and a present strictly positive size. -/
def strongInv (b : SimpleOrderBook) : Bool :=
  sidePricePos b.best_ask_price_ b.best_ask_size_ &&
  sidePricePos b.best_bid_price_ b.best_bid_size_

/-- A present size of zero is allowed only on a side whose price is absent
(the remnant left behind by a full consumption). -/
def sizeOk (b : SimpleOrderBook) : Bool :=
  (if b.best_ask_size_ = some 0 then b.best_ask_price_.isNone else true) &&
  (if b.best_bid_size_ = some 0 then b.best_bid_price_.isNone else true)

/-- The book left behind by `match_limit_order` (the unchanged book when the
execution is undefined; never exercised under `strongInv`). -/
def limitPostBook (b : SimpleOrderBook) (side : OrderSide) (px : Price)
    (qty : ℕ) : SimpleOrderBook :=
  ((b.match_limit_order side px qty).map Prod.snd).getD b

/-- Book states reachable from a freshly constructed `SimpleOrderBook` by
`update_quote`, `match_market_order` and (defined executions of)
`match_limit_order`. -/
inductive Reachable : SimpleOrderBook → Prop
  | init (symbol : String) : Reachable (SimpleOrderBook.mkEmpty symbol)
  | update {b : SimpleOrderBook} (q : QuoteEvent) :
      Reachable b → Reachable (b.update_quote q)
  | market {b : SimpleOrderBook} (side : OrderSide) (qty : ℕ) :
      Reachable b → Reachable (b.match_market_order side qty).2
  | limit {b b' : SimpleOrderBook} {r : Price × ℕ} (side : OrderSide)
      (px : Price) (qty : ℕ) :
      Reachable b → b.match_limit_order side px qty = some (r, b') →
      Reachable b'

/-- The price of the side an order of the given side consumes (ask for a
buy, bid for a sell). -/
def oppPrice (b : SimpleOrderBook) : OrderSide → Option ℚ
  | .BUY => b.best_ask_price_
  | .SELL => b.best_bid_price_

/-- The size of the side an order of the given side consumes. -/
def oppSize (b : SimpleOrderBook) : OrderSide → Option ℕ
  | .BUY => b.best_ask_size_
  | .SELL => b.best_bid_size_

/-- The aggressiveness condition exactly as the specification words it
(§4.1): a buy limit is aggressive iff the ask side is present and
`limit_px ≥ ask_px − ε`; a sell limit iff the bid side is present and
`limit_px ≤ bid_px + ε`.  Stated over the model to compare with the code's
`match_limit_order` guard. -/
def specAggressive (b : SimpleOrderBook) (side : OrderSide)
    (limit_price : Price) : Prop :=
  match side with
  | .BUY => ∃ ap l, b.best_ask_price_ = some ap ∧ limit_price = some l ∧
      ap - PRICE_EPSILON ≤ l
  | .SELL => ∃ bp l, b.best_bid_price_ = some bp ∧ limit_price = some l ∧
      l ≤ bp + PRICE_EPSILON

/-! ### Concrete inputs for counterexamples and witnesses -/

/-- Latency configuration whose fill-processing leg equals the
order-processing leg (10 µs each); the other legs keep their defaults. -/
def equalLegCfg : LatencyConfig := { exchange_fill_processing_latency := 10000 }

/-- A book with liquidity on both sides. -/
def liquidBook : SimpleOrderBook :=
  ⟨"EURUSD", some 10, some 100000, some 11, some 100000⟩

/-- A market buy of 1000 decided at 1_000_050_000 ns. -/
def marketBuyReq : OrderRequest :=
  ⟨"S", 1, "EURUSD", .BUY, .MARKET, none, 1000, 1000050000⟩

/-- `liquidBook` after `marketBuyReq`'s fill consumed 1000 from the ask. -/
def liquidBookAfter : SimpleOrderBook :=
  ⟨"EURUSD", some 10, some 100000, some 11, some 99000⟩

/-- The all-zero (non-negative) latency configuration. -/
def zeroCfg : LatencyConfig := ⟨0, 0, 0, 0, 0, 0⟩

/-- A market buy of 5 decided at time 0. -/
def zeroTimeReq : OrderRequest := ⟨"S", 1, "A", .BUY, .MARKET, none, 5, 0⟩

/-- The `ACKNOWLEDGED` ack emitted for `marketBuyReq` under `equalLegCfg`
(and also under the default configuration). -/
def equalLegAck : MEvent :=
  .orderAck 1000105000 "S" 1 1 "EURUSD" .ACKNOWLEDGED (some 0) 0 0 1000

/-- The fill ack emitted for `marketBuyReq` under `equalLegCfg`: it lands at
the same instant as the `ACKNOWLEDGED` ack. -/
def equalLegFill : MEvent :=
  .orderAck 1000105000 "S" 1 1 "EURUSD" .FILLED (some 11) 1000 1000 0

/-- The fill ack emitted for `marketBuyReq` under the default configuration
(15 µs fill processing): lands 5 µs after the `ACKNOWLEDGED` ack. -/
def defaultFill : MEvent :=
  .orderAck 1000110000 "S" 1 1 "EURUSD" .FILLED (some 11) 1000 1000 0

/-- The ack emitted for `zeroTimeReq` under `zeroCfg`: effective timestamp 0. -/
def zeroAck : MEvent := .orderAck 0 "S" 1 1 "A" .ACKNOWLEDGED (some 0) 0 0 5

/-- A book whose ask side holds exactly 5 units. -/
def smallAskBook : SimpleOrderBook := ⟨"S", none, none, some 1, some 5⟩

/-- `smallAskBook` after a market buy of 5 consumed the whole ask level. -/
def smallAskBookAfter : SimpleOrderBook :=
  (smallAskBook.match_market_order .BUY 5).2

/-! ### Supporting lemmas (shared between claims) -/

theorem strongInv_mkEmpty (symbol : String) :
    strongInv (SimpleOrderBook.mkEmpty symbol) = true := rfl

theorem strongInv_update {b : SimpleOrderBook} (q : QuoteEvent)
    (h : strongInv b = true) : strongInv (b.update_quote q) = true := by
  rcases b with ⟨sym, bp, bs, ap, asz⟩
  unfold SimpleOrderBook.update_quote
  split
  · exact h
  · simp only [strongInv, sidePricePos] at h ⊢
    rcases hb : q.bid_price with _ | bv <;> rcases ha : q.ask_price with _ | av <;>
      simp [priceGtZero, hb, ha] <;> split_ifs <;>
      simp_all [sidePricePos]

set_option maxHeartbeats 1000000 in
theorem strongInv_market {b : SimpleOrderBook} (side : OrderSide) (qty : ℕ)
    (h : strongInv b = true) :
    strongInv (b.match_market_order side qty).2 = true ∧
    sizeOk (b.match_market_order side qty).2 = true := by
  rcases b with ⟨sym, bp, bs, ap, asz⟩
  cases side <;>
    rcases bp with _ | bpv <;> rcases bs with _ | bv <;>
    rcases ap with _ | apv <;> rcases asz with _ | av <;>
    simp_all [SimpleOrderBook.match_market_order, strongInv, sizeOk,
      sidePricePos] <;>
    first
      | omega
      | (split_ifs <;> simp_all <;> omega)

set_option maxHeartbeats 1600000 in
theorem limit_isSome {b : SimpleOrderBook} (side : OrderSide) (px : Price)
    (qty : ℕ) (h : strongInv b = true) :
    (b.match_limit_order side px qty).isSome = true := by
  rcases b with ⟨sym, bp, bs, ap, asz⟩
  cases side <;>
    rcases px with _ | pxv <;>
    rcases bp with _ | bpv <;> rcases bs with _ | bv <;>
    rcases ap with _ | apv <;> rcases asz with _ | av <;>
    simp_all [SimpleOrderBook.match_limit_order, strongInv,
      sidePricePos, isnan, priceGeQ, priceLeQ] <;>
    split_ifs <;> simp_all

set_option maxHeartbeats 1600000 in
theorem strongInv_limitPost {b : SimpleOrderBook} (side : OrderSide)
    (px : Price) (qty : ℕ) (h : strongInv b = true) :
    strongInv (limitPostBook b side px qty) = true ∧
    sizeOk (limitPostBook b side px qty) = true := by
  rcases b with ⟨sym, bp, bs, ap, asz⟩
  cases side <;>
    rcases px with _ | pxv <;>
    rcases bp with _ | bpv <;> rcases bs with _ | bv <;>
    rcases ap with _ | apv <;> rcases asz with _ | av <;>
    simp_all [limitPostBook, SimpleOrderBook.match_limit_order, strongInv,
      sizeOk, sidePricePos, isnan, priceGeQ, priceLeQ] <;>
    first
      | omega
      | (split_ifs <;> simp_all <;> omega)

set_option maxHeartbeats 1600000 in
theorem limit_full_consumption {b b1 : SimpleOrderBook} (side : OrderSide)
    {px : Price} {qty : ℕ} {p : Price} {f sz : ℕ}
    (he : some ((p, f), b1) = b.match_limit_order side px qty)
    (hs : oppSize b side = some sz) (hle : sz ≤ qty) (hf : 0 < f) :
    oppPrice b1 side = none ∧ oppSize b1 side = some 0 := by
  rcases b with ⟨sym, bp, bs, ap, asz⟩
  cases side <;>
    rcases px with _ | pxv <;>
    rcases bp with _ | bpv <;> rcases bs with _ | bv <;>
    rcases ap with _ | apv <;> rcases asz with _ | av <;>
    simp_all [SimpleOrderBook.match_limit_order, oppPrice, oppSize,
      isnan, priceGeQ, priceLeQ] <;>
    first
      | omega
      | (split_ifs at he <;> simp_all [oppPrice, oppSize] <;> omega)

theorem reachable_strongInv {b : SimpleOrderBook} (h : Reachable b) :
    strongInv b = true := by
  induction h with
  | init s => rfl
  | update q _ ih => exact strongInv_update q ih
  | market side qty _ ih => exact (strongInv_market side qty ih).1
  | limit side px qty _ he ih =>
    have h2 := (strongInv_limitPost side px qty ih).1
    rw [limitPostBook, he] at h2
    simpa using h2

theorem presence_of_strongInv {b : SimpleOrderBook} (h : strongInv b = true) :
    (b.best_ask_price_.isSome → b.best_ask_size_.isSome) ∧
    (b.best_bid_price_.isSome → b.best_bid_size_.isSome) := by
  rcases b with ⟨sym, bp, bs, ap, asz⟩
  rcases bp with _ | bpv <;> rcases bs with _ | bv <;>
    rcases ap with _ | apv <;> rcases asz with _ | av <;>
    simp_all [strongInv, sidePricePos]

set_option maxHeartbeats 1000000 in
theorem market_full_consumption {b : SimpleOrderBook} (side : OrderSide)
    {qty : ℕ} {pv : ℚ} {sz : ℕ} (hp : oppPrice b side = some pv)
    (hs : oppSize b side = some sz) (hpos : 0 < sz) (hle : sz ≤ qty) :
    oppPrice (b.match_market_order side qty).2 side = none ∧
    oppSize (b.match_market_order side qty).2 side = some 0 := by
  rcases b with ⟨sym, bp, bs, ap, asz⟩
  cases side <;>
    rcases bp with _ | bpv <;> rcases bs with _ | bv <;>
    rcases ap with _ | apv <;> rcases asz with _ | av <;>
    simp_all [SimpleOrderBook.match_market_order, oppPrice, oppSize] <;>
    first
      | omega
      | (split_ifs <;> simp_all <;> omega)

/-! ### Claim theorems -/

/-- C1 (code_bug evaluation): in the run of `Dispatcher::run` on a two-quote
feed (arrivals 100 ns and 200 ns) with one registered strategy and no orders,
both market-data events are enqueued into the MEPQ, yet the push sequence
into the strategy's mailbox is: quote@100, STRATEGY_SHUTDOWN@101, quote@200,
fallback STRATEGY_SHUTDOWN@10000101 — the second market-data event is pushed
*after* the `STRATEGY_SHUTDOWN` control, contradicting the claim that every
market-data push precedes the shutdown push.  The cause: the feed is fully
preloaded, so the parser is exhausted after the first pop and
`END_OF_DATA_FEED` is scheduled at `first event + 1 ns`, ahead of the rest of
the feed. -/
theorem c1_market_data_delivered_after_shutdown :
    twoQuoteRun.completed = true ∧
    (twoQuoteRun.state.mepq_push_trace.filter MEvent.isMarketData).map
      MEvent.get_effective_timestamp = [100, 200] ∧
    twoQuoteMailbox.map (fun e =>
      (e.isMarketData, e.isStrategyShutdown, e.get_effective_timestamp)) =
      [(true, false, 100), (false, true, 101), (true, false, 200),
       (false, true, 10000101)] := by
  refine ⟨rfl, rfl, rfl⟩

/-- C2 (code_bug evaluation): in the whole run of `Dispatcher::run` on the
empty feed (wall clock 42 ns), *two* `END_OF_DATA_FEED` events are enqueued
into the MEPQ, not one: `load_initial_data` pushes a dispatcher-typed one at
the wall-clock time 42 (not `current_sim_time + 1`: the simulated clock is
still `Timestamp::min()` at that moment), and the main loop later pushes the
flag-guarded strategy-typed one at `current_sim_time + 1 = 43`. -/
theorem c2_two_end_of_data_feed_events :
    emptyFeedRun.completed = true ∧
    (emptyFeedRun.state.mepq_push_trace.filter MEvent.isEndOfDataFeed).map
      (fun e => (e.get_effective_timestamp, e.etype)) =
      [(42, .SIM_CONTROL_DISPATCHER), (43, .SIM_CONTROL_STRATEGY)] ∧
    (42 : Timestamp) ≠ timestampMin + 1 := by
  refine ⟨rfl, rfl, by decide⟩

/-- C3 (counterexample): with `exchange_fill_processing_latency =
exchange_order_processing_latency = 10 µs`, the market buy decided at
1_000_050_000 ns gets its `ACKNOWLEDGED` ack **and** its fill ack at the same
instant 1_000_105_000 ns.  The claim's formula `max(fill_arrival, t_ack + 1)`
would give 1_000_105_001, and the claimed inequality
`fill.ts_arrival ≥ ack.ts_arrival + 1 ns` fails. -/
theorem c3_fill_equals_ack_counterexample :
    simulate_order_lifecycle equalLegCfg 1 liquidBook marketBuyReq =
      some (liquidBookAfter, [equalLegAck, equalLegFill]) ∧
    equalLegAck.get_effective_timestamp = 1000105000 ∧
    equalLegFill.get_effective_timestamp = 1000105000 ∧
    equalLegFill.get_effective_timestamp ≠
      max (get_fill_arrival_at_strategy_ts equalLegCfg
            (marketBuyReq.request_timestamp
              + equalLegCfg.strategy_processing_latency
              + equalLegCfg.order_network_latency_strat_to_exch))
        (equalLegAck.get_effective_timestamp + 1) ∧
    ¬ (equalLegAck.get_effective_timestamp + 1 ≤
        equalLegFill.get_effective_timestamp) := by
  refine ⟨rfl, rfl, rfl, by decide, by decide⟩

/-- C3 (amended): the fill ack's effective timestamp is
`fill_arrival_at_strategy(t_exch)` when that is `≥ t_ack`, and `t_ack + 1 ns`
only when it is strictly below `t_ack`; consequently
`fill.ts_arrival ≥ ack.ts_arrival` (not `≥ ack + 1`) for every latency
configuration, with equality exactly when the fill and order processing legs
coincide. -/
theorem c3_fill_timestamp (cfg : LatencyConfig) (exId : ℕ)
    (book : SimpleOrderBook) (req : OrderRequest) (book1 : SimpleOrderBook)
    (a f : MEvent)
    (h : simulate_order_lifecycle cfg exId book req = some (book1, [a, f])) :
    f.get_effective_timestamp =
      (if get_fill_arrival_at_strategy_ts cfg (req.request_timestamp
            + cfg.strategy_processing_latency
            + cfg.order_network_latency_strat_to_exch) <
          a.get_effective_timestamp
       then a.get_effective_timestamp + 1
       else get_fill_arrival_at_strategy_ts cfg (req.request_timestamp
            + cfg.strategy_processing_latency
            + cfg.order_network_latency_strat_to_exch)) ∧
    a.get_effective_timestamp ≤ f.get_effective_timestamp := by
  unfold simulate_order_lifecycle at h
  dsimp only [get_strategy_processing_latency, get_order_arrival_at_exchange_ts,
    get_ack_arrival_at_strategy_ts, get_fill_arrival_at_strategy_ts] at h
  split at h
  · exact absurd h (by simp)
  · split at h
    · simp only [Option.some.injEq, Prod.mk.injEq, List.cons.injEq,
        and_true, List.nil_eq] at h
      obtain ⟨-, rfl, rfl⟩ := h
      refine ⟨?_, ?_⟩
      · simp only [MEvent.get_effective_timestamp,
          get_fill_arrival_at_strategy_ts]
      · simp only [MEvent.get_effective_timestamp]
        split <;> linarith
    · exact absurd h (by simp)

/-- C3 (witness): the amended formula applied at `equalLegCfg`. -/
theorem c3_fill_timestamp_witness :
    simulate_order_lifecycle equalLegCfg 1 liquidBook marketBuyReq =
      some (liquidBookAfter, [equalLegAck, equalLegFill]) ∧
    (equalLegFill.get_effective_timestamp = (1000105000 : ℤ) ∧
     equalLegAck.get_effective_timestamp ≤
       equalLegFill.get_effective_timestamp) :=
  ⟨rfl, c3_fill_timestamp equalLegCfg 1 liquidBook marketBuyReq
    liquidBookAfter equalLegAck equalLegFill rfl⟩

/-- C4 (counterexample): starting from a book whose ask level holds 5 units,
a market buy of 5 consumes the whole level; afterwards the ask *price* is
absent but the ask *size* is still present with value 0 — the claim's
"that side is cleared (both its price and its size become absent)" and
"each side's size is either absent or strictly positive" both fail. -/
theorem c4_full_consumption_counterexample :
    smallAskBookAfter.best_ask_price_ = none ∧
    smallAskBookAfter.best_ask_size_ = some 0 ∧
    ¬ (smallAskBookAfter.best_ask_size_ = none ∨
       ∃ s, smallAskBookAfter.best_ask_size_ = some s ∧ 0 < s) := by
  refine ⟨rfl, rfl, ?_⟩
  simp [smallAskBookAfter, smallAskBook, SimpleOrderBook.match_market_order]

/-- C4 (amended): from any book satisfying the invariant (a present price
comes with a present strictly positive size), every `match_market_order` and
every defined `match_limit_order` preserves that invariant, and a present
size of zero only ever occurs on a side whose price is absent; when a match
consumes the entire resting size of a side, that side's price becomes absent
while its size remains present with value zero. -/
theorem c4_match_preserves_book_invariant (b : SimpleOrderBook)
    (side : OrderSide) (px : Price) (qty qty2 : ℕ)
    (hInv : strongInv b = true) :
    (strongInv (b.match_market_order side qty).2 = true ∧
     sizeOk (b.match_market_order side qty).2 = true) ∧
    (∀ r b1, b.match_limit_order side px qty2 = some (r, b1) →
       strongInv b1 = true ∧ sizeOk b1 = true) ∧
    (∀ pv sz, oppPrice b side = some pv → oppSize b side = some sz →
       sz ≤ qty →
       oppPrice (b.match_market_order side qty).2 side = none ∧
       oppSize (b.match_market_order side qty).2 side = some 0) ∧
    (∀ p f b1 sz, b.match_limit_order side px qty2 = some ((p, f), b1) →
       oppSize b side = some sz → sz ≤ qty2 → 0 < f →
       oppPrice b1 side = none ∧ oppSize b1 side = some 0) := by
  refine ⟨strongInv_market side qty hInv, ?_, ?_, ?_⟩
  · intro r b1 he
    have h2 := strongInv_limitPost side px qty2 hInv
    rw [limitPostBook, he] at h2
    simpa using h2
  · intro pv sz hp hs hle
    have hpos : 0 < sz := by
      rcases b with ⟨sym, bp, bs, ap, asz⟩
      cases side <;>
        simp_all [oppPrice, oppSize, strongInv, sidePricePos]
    exact market_full_consumption side hp hs hpos hle
  · intro p f b1 sz he hs hle hf
    exact limit_full_consumption side he.symm hs hle hf

/-- C4 (witness): the amended invariant applied to a full consumption of the
ask level of `liquidBook`, by a market buy and by an aggressive limit buy. -/
theorem c4_match_preserves_book_invariant_witness :
    strongInv liquidBook = true ∧
    (strongInv (liquidBook.match_market_order .BUY 100000).2 = true ∧
     sizeOk (liquidBook.match_market_order .BUY 100000).2 = true) ∧
    (oppPrice (liquidBook.match_market_order .BUY 100000).2 .BUY = none ∧
     oppSize (liquidBook.match_market_order .BUY 100000).2 .BUY = some 0) ∧
    (oppPrice (⟨"EURUSD", some 10, some 100000, none, some 0⟩ :
        SimpleOrderBook) .BUY = none ∧
     oppSize (⟨"EURUSD", some 10, some 100000, none, some 0⟩ :
        SimpleOrderBook) .BUY = some 0) :=
  ⟨by decide,
   (c4_match_preserves_book_invariant liquidBook .BUY (some 12) 100000 100000
     (by decide)).1,
   (c4_match_preserves_book_invariant liquidBook .BUY (some 12) 100000 100000
     (by decide)).2.2.1 11 100000 (by decide) (by decide) (by decide),
   (c4_match_preserves_book_invariant liquidBook .BUY (some 12) 100000 100000
     (by decide)).2.2.2 (some 11) 100000
     ⟨"EURUSD", some 10, some 100000, none, some 0⟩ 100000
     (by norm_num [liquidBook, SimpleOrderBook.match_limit_order, isnan,
       priceGeQ, PRICE_EPSILON])
     (by decide) (by decide) (by decide)⟩

/-- C5: the `ACKNOWLEDGED` ack emitted by the order lifecycle simulator has
effective timestamp `ts_decision + strategy_processing +
order_network_strat_to_exch + exchange_order_processing +
ack_network_exch_to_strat`, carries status `ACKNOWLEDGED`, `cum_qty = 0` and
`leaves_qty = quantity`, and is the first event pushed. -/
theorem c5_acknowledged_timestamp (cfg : LatencyConfig) (exId : ℕ)
    (book : SimpleOrderBook) (req : OrderRequest) (book1 : SimpleOrderBook)
    (evs : List MEvent)
    (h : simulate_order_lifecycle cfg exId book req = some (book1, evs)) :
    evs.head? = some (.orderAck
      (req.request_timestamp + cfg.strategy_processing_latency
        + cfg.order_network_latency_strat_to_exch
        + cfg.exchange_order_processing_latency
        + cfg.ack_network_latency_exch_to_strat)
      req.strategy_id req.client_order_id exId req.symbol .ACKNOWLEDGED
      (some 0) 0 0 req.quantity) := by
  unfold simulate_order_lifecycle at h
  dsimp only [get_strategy_processing_latency, get_order_arrival_at_exchange_ts,
    get_ack_arrival_at_strategy_ts, get_fill_arrival_at_strategy_ts] at h
  split at h
  · exact absurd h (by simp)
  · split at h <;>
      (simp only [Option.some.injEq, Prod.mk.injEq] at h
       obtain ⟨-, rfl⟩ := h
       simp [add_assoc])

/-- C5 (witness): with `ts_decision = 1_000_050_000` ns and the default
latencies 5/20/10/20 µs, the `ACKNOWLEDGED` ack lands at
`1_000_050_000 + 5_000 + 20_000 + 10_000 + 20_000 = 1_000_105_000` ns. -/
theorem c5_acknowledged_timestamp_witness :
    simulate_order_lifecycle {} 1 liquidBook marketBuyReq =
      some (liquidBookAfter, [equalLegAck, defaultFill]) ∧
    ([equalLegAck, defaultFill].head? = some (.orderAck
      (1000050000 + 5000 + 20000 + 10000 + 20000) "S" 1 1 "EURUSD"
      .ACKNOWLEDGED (some 0) 0 0 1000)) :=
  ⟨rfl, c5_acknowledged_timestamp {} 1 liquidBook marketBuyReq
    liquidBookAfter [equalLegAck, defaultFill] rfl⟩

set_option maxHeartbeats 1600000 in
/-- C6: for an invariant-satisfying book and a positive quantity,
`match_limit_order` fills iff the order is aggressive in the specification's
sense (buy: ask side present and `limit_px ≥ ask_px − ε`; sell: bid side
present and `limit_px ≤ bid_px + ε`); an aggressive limit fills at the
resting top-of-book price with quantity `min(qty, top size)`, and a passive
limit returns `(INVALID_PRICE, 0)` and leaves the book unchanged. -/
theorem c6_limit_fills_iff_aggressive (b : SimpleOrderBook) (side : OrderSide)
    (limit_price : Price) (qty : ℕ) (hInv : strongInv b = true)
    (hq : 0 < qty) :
    ∃ p f b1, b.match_limit_order side limit_price qty = some ((p, f), b1) ∧
      ((0 < f) ↔ specAggressive b side limit_price) ∧
      (0 < f → p = oppPrice b side ∧ f = min qty ((oppSize b side).getD 0)) ∧
      (f = 0 → p = INVALID_PRICE ∧ b1 = b) := by
  rcases b with ⟨sym, bp, bs, ap, asz⟩
  cases side <;>
    rcases limit_price with _ | pxv <;>
    rcases bp with _ | bpv <;> rcases bs with _ | bv <;>
    rcases ap with _ | apv <;> rcases asz with _ | av <;>
    simp_all [SimpleOrderBook.match_limit_order, strongInv, specAggressive,
      oppPrice, oppSize, sidePricePos, isnan, priceGeQ, priceLeQ] <;>
    first
      | omega
      | (refine ⟨INVALID_PRICE, 0, _, ⟨⟨rfl, rfl⟩, rfl⟩, ?_, ?_,
          fun _ => ⟨rfl, rfl⟩⟩ <;> simp_all)
      | (split_ifs <;> refine ⟨_, _, _, rfl, ?_, ?_, ?_⟩ <;>
          simp_all [Nat.lt_min, Nat.min_eq_zero_iff, Nat.pos_iff_ne_zero])
      | (split_ifs <;> simp_all <;> omega)

/-- C6 (witness): a buy limit at 12 against `liquidBook` (ask 11 × 100000)
is aggressive and fills 100 at 11; the passive clauses hold vacuously. -/
theorem c6_limit_fills_iff_aggressive_witness :
    strongInv liquidBook = true ∧ 0 < 100 ∧
    (∃ p f b1, liquidBook.match_limit_order .BUY (some 12) 100 =
        some ((p, f), b1) ∧
      ((0 < f) ↔ specAggressive liquidBook .BUY (some 12)) ∧
      (0 < f → p = oppPrice liquidBook .BUY ∧
        f = min 100 ((oppSize liquidBook .BUY).getD 0)) ∧
      (f = 0 → p = INVALID_PRICE ∧ b1 = liquidBook)) :=
  ⟨by decide, by decide,
   c6_limit_fills_iff_aggressive liquidBook .BUY (some 12) 100
     (by decide) (by decide)⟩

/-- C7 (counterexample): `try_pop` on a closed but non-empty queue returns
`nullopt`, not the front item — the shutdown check in `try_pop` precedes any
read of the queue, so the claim's "a pop on a closed but non-empty queue
returns the front item" fails for the non-blocking pop. -/
theorem c7_try_pop_counterexample :
    (⟨[7], true, 0⟩ : BlockingQueue ℕ).queue_ ≠ [] ∧
    (⟨[7], true, 0⟩ : BlockingQueue ℕ).shutdown_requested_ = true ∧
    (BlockingQueue.try_pop (⟨[7], true, 0⟩ : BlockingQueue ℕ)).1 ≠ some 7 ∧
    (BlockingQueue.try_pop (⟨[7], true, 0⟩ : BlockingQueue ℕ)).1 = none := by
  refine ⟨by decide, rfl, by decide, rfl⟩

/-- C7 (amended): after `close()`, the blocking pop (`wait_and_pop`) drains
the already-enqueued items in FIFO order and reports Closed only once the
queue is empty; `try_pop`, however, reports failure (`nullopt`) as soon as
the queue is closed, even when items remain, and leaves the queue
untouched. -/
theorem c7_closed_queue_drain (T : Type) (q : BlockingQueue T)
    (hc : q.shutdown_requested_ = true) :
    BlockingQueue.popAll q.queue_.length q = (q.queue_, .closed) ∧
    (BlockingQueue.try_pop q).1 = none ∧ (BlockingQueue.try_pop q).2 = q := by
  obtain ⟨l, sd, m⟩ := q
  simp only at hc
  subst hc
  refine ⟨?_, ?_, ?_⟩
  · induction l with
    | nil => simp [BlockingQueue.popAll, BlockingQueue.wait_and_pop]
    | cons x xs ih =>
      simp [BlockingQueue.popAll, BlockingQueue.wait_and_pop, ih]
  · simp [BlockingQueue.try_pop]
  · simp [BlockingQueue.try_pop]

/-- C7 (witness): draining a closed two-element queue yields both items in
FIFO order, then Closed; `try_pop` on it fails immediately. -/
theorem c7_closed_queue_drain_witness :
    (⟨[4, 5], true, 10000⟩ : BlockingQueue ℕ).shutdown_requested_ = true ∧
    (BlockingQueue.popAll 2 (⟨[4, 5], true, 10000⟩ : BlockingQueue ℕ) =
      ([4, 5], .closed) ∧
     (BlockingQueue.try_pop (⟨[4, 5], true, 10000⟩ : BlockingQueue ℕ)).1 =
       none ∧
     (BlockingQueue.try_pop (⟨[4, 5], true, 10000⟩ : BlockingQueue ℕ)).2 =
       ⟨[4, 5], true, 10000⟩) :=
  ⟨rfl, c7_closed_queue_drain ℕ ⟨[4, 5], true, 10000⟩ rfl⟩

/-- C8 (counterexample): with the all-zero — hence non-negative — latency
configuration and an order whose `ts_decision` equals the current simulated
time 0, the synthesised `ACKNOWLEDGED` ack has effective timestamp 0, which
is not strictly greater than the current simulated time. -/
theorem c8_zero_latency_counterexample :
    (0 : ℤ) ≤ zeroCfg.market_data_feed_latency ∧
    (0 : ℤ) ≤ zeroCfg.strategy_processing_latency ∧
    (0 : ℤ) ≤ zeroCfg.order_network_latency_strat_to_exch ∧
    (0 : ℤ) ≤ zeroCfg.exchange_order_processing_latency ∧
    (0 : ℤ) ≤ zeroCfg.exchange_fill_processing_latency ∧
    (0 : ℤ) ≤ zeroCfg.ack_network_latency_exch_to_strat ∧
    (0 : ℤ) ≤ zeroTimeReq.request_timestamp ∧
    simulate_order_lifecycle zeroCfg 1 (SimpleOrderBook.mkEmpty "A")
      zeroTimeReq = some (SimpleOrderBook.mkEmpty "A", [zeroAck]) ∧
    ¬ (∀ e ∈ [zeroAck], (0 : ℤ) < e.get_effective_timestamp) := by
  refine ⟨by decide, by decide, by decide, by decide, by decide, by decide,
    by decide, rfl, by decide⟩

/-- C8 (amended): for every latency configuration with *strictly positive*
durations and every order request with `ts_decision ≥ current_sim_time`,
every event synthesised by the order lifecycle simulator has an effective
timestamp strictly greater than `current_sim_time`. -/
theorem c8_synthesised_events_future (cfg : LatencyConfig) (exId : ℕ)
    (book : SimpleOrderBook) (req : OrderRequest) (book1 : SimpleOrderBook)
    (evs : List MEvent) (cur : Timestamp)
    (hmd : 0 < cfg.market_data_feed_latency)
    (hsp : 0 < cfg.strategy_processing_latency)
    (hon : 0 < cfg.order_network_latency_strat_to_exch)
    (heop : 0 < cfg.exchange_order_processing_latency)
    (hefp : 0 < cfg.exchange_fill_processing_latency)
    (han : 0 < cfg.ack_network_latency_exch_to_strat)
    (hdec : cur ≤ req.request_timestamp)
    (h : simulate_order_lifecycle cfg exId book req = some (book1, evs)) :
    ∀ e ∈ evs, cur < e.get_effective_timestamp := by
  unfold simulate_order_lifecycle at h
  dsimp only [get_strategy_processing_latency, get_order_arrival_at_exchange_ts,
    get_ack_arrival_at_strategy_ts, get_fill_arrival_at_strategy_ts] at h
  split at h
  · exact absurd h (by simp)
  · split at h
    · simp only [Option.some.injEq, Prod.mk.injEq] at h
      obtain ⟨-, rfl⟩ := h
      intro e he
      simp only [List.mem_cons, List.not_mem_nil, or_false] at he
      rcases he with rfl | rfl <;>
        simp only [MEvent.get_effective_timestamp]
      · linarith
      · split <;> linarith
    · simp only [Option.some.injEq, Prod.mk.injEq] at h
      obtain ⟨-, rfl⟩ := h
      intro e he
      simp only [List.mem_cons, List.not_mem_nil, or_false] at he
      rcases he with rfl
      simp only [MEvent.get_effective_timestamp]
      linarith

/-- C8 (witness): under the default (strictly positive) latencies, both acks
for `marketBuyReq` land strictly after the simulated time 1_000_000_000 ns. -/
theorem c8_synthesised_events_future_witness :
    (0 : ℤ) < ({} : LatencyConfig).market_data_feed_latency ∧
    (0 : ℤ) < ({} : LatencyConfig).strategy_processing_latency ∧
    (0 : ℤ) < ({} : LatencyConfig).order_network_latency_strat_to_exch ∧
    (0 : ℤ) < ({} : LatencyConfig).exchange_order_processing_latency ∧
    (0 : ℤ) < ({} : LatencyConfig).exchange_fill_processing_latency ∧
    (0 : ℤ) < ({} : LatencyConfig).ack_network_latency_exch_to_strat ∧
    (1000000000 : ℤ) ≤ marketBuyReq.request_timestamp ∧
    simulate_order_lifecycle {} 1 liquidBook marketBuyReq =
      some (liquidBookAfter, [equalLegAck, defaultFill]) ∧
    (∀ e ∈ [equalLegAck, defaultFill],
      (1000000000 : ℤ) < e.get_effective_timestamp) :=
  ⟨by decide, by decide, by decide, by decide, by decide, by decide,
   by decide, rfl,
   c8_synthesised_events_future {} 1 liquidBook marketBuyReq liquidBookAfter
     [equalLegAck, defaultFill] 1000000000 (by decide) (by decide)
     (by decide) (by decide) (by decide) (by decide) (by decide) rfl⟩

/-- C9: every book state reachable from the empty book through
`update_quote`, `match_market_order` and `match_limit_order` satisfies
"present price implies present size" on both sides, and on such states
`match_limit_order` never reaches the execution that dereferences a
disengaged size optional (its model result is always `some`). -/
theorem c9_reachable_presence_invariant (b : SimpleOrderBook)
    (hr : Reachable b) :
    (b.best_ask_price_.isSome → b.best_ask_size_.isSome) ∧
    (b.best_bid_price_.isSome → b.best_bid_size_.isSome) ∧
    (∀ side px qty, (b.match_limit_order side px qty).isSome = true) := by
  have hInv := reachable_strongInv hr
  exact ⟨(presence_of_strongInv hInv).1, (presence_of_strongInv hInv).2,
    fun side px qty => limit_isSome side px qty hInv⟩

/-- C9 (witness): the invariant and the definedness of `match_limit_order`
at the freshly constructed empty book. -/
theorem c9_reachable_presence_invariant_witness :
    Reachable (SimpleOrderBook.mkEmpty "X") ∧
    ((SimpleOrderBook.mkEmpty "X").match_limit_order .BUY (some 1) 5).isSome
      = true :=
  ⟨Reachable.init "X",
   (c9_reachable_presence_invariant (SimpleOrderBook.mkEmpty "X")
     (Reachable.init "X")).2.2 .BUY (some 1) 5⟩

/-- C10: for every book state, a market order with quantity 0, a limit order
with quantity 0, and a limit order with a NaN limit price all return
`(INVALID_PRICE, 0)` and leave the book completely unchanged. -/
theorem c10_zero_quantity_nan_noop (b : SimpleOrderBook) (side : OrderSide)
    (px : Price) (qty : ℕ) :
    b.match_market_order side 0 = ((INVALID_PRICE, 0), b) ∧
    b.match_limit_order side px 0 = some ((INVALID_PRICE, 0), b) ∧
    b.match_limit_order side INVALID_PRICE qty =
      some ((INVALID_PRICE, 0), b) := by
  refine ⟨?_, ?_, ?_⟩
  · simp [SimpleOrderBook.match_market_order]
  · simp [SimpleOrderBook.match_limit_order]
  · simp [SimpleOrderBook.match_limit_order, isnan, INVALID_PRICE]

end MarketReplay
